import Mathlib

/-
Verification of the Streamlit Ollama query application (src/app.py).

The application is a single linear script: read sidebar / widget values,
and on a submit press with a non-empty prompt issue exactly one blocking
`client.generate` call, then render the success or failure outcome.  The
script is re-executed from scratch on every interaction and keeps no state
across cycles, so one interaction cycle is shallowly embedded as a pure
function `runCycle` from the current widget values and a stub inference
service (an arbitrary function from the outbound request to a service
result) to the rendered outcome together with the trace of constructed
clients and issued requests.  Transient banners (`st.info`, `st.spinner`,
`st.success`) are not part of the terminal rendered state.  The Ollama
client library and the HTTP transport are external collaborators: their
behaviour is abstracted as the `ServiceResult` a stub service returns for
a request (a successful response dict, a connection-level error as caught
by the script, or any other exception carrying a message).
-/

/-- The hardcoded model list offered by the sidebar selectbox
(`available_models` in app.py line 31). -/
def available_models : List String := ["llama2", "mistral", "neural-chat", "dolphin-mixtral"]

/-- Hardcoded fallback for the Ollama host used when the `OLLAMA_HOST`
environment variable is unset (app.py line 26). -/
def default_host_fallback : String := "http://localhost:11434"

/-- Default value of the host text input:
`os.getenv("OLLAMA_HOST", "http://localhost:11434")` (app.py line 26),
with the process environment abstracted as a lookup function. -/
def host_default (env : String → Option String) : String :=
  (env "OLLAMA_HOST").getD default_host_fallback

/-- Static configuration of a bounded `st.slider` widget: minimum,
maximum, default value and step granularity. -/
structure SliderConfig where
  min : ℚ
  max : ℚ
  default : ℚ
  step : ℚ
deriving DecidableEq, Repr

/-- The temperature slider: `st.slider("Temperature", min_value=0.0,
max_value=1.0, value=0.7, step=0.1)` (app.py lines 39-46). -/
def temperature_slider : SliderConfig :=
  { min := 0, max := 1, default := 7/10, step := 1/10 }

/-- The top-p slider: `st.slider("Top P (Nucleus Sampling)", min_value=0.0,
max_value=1.0, value=0.9, step=0.1)` (app.py lines 49-56). -/
def top_p_slider : SliderConfig :=
  { min := 0, max := 1, default := 9/10, step := 1/10 }

/-- The values a `[0.0, 1.0]` slider of step `0.1` can take. -/
def validSliderValue (q : ℚ) : Prop := ∃ k : ℕ, k ≤ 10 ∧ q = (k : ℚ) / 10

/-- The widget values in force at the moment of one interaction cycle:
host text input, selectbox choice (an index into `available_models`),
prompt text area, the two sliders and the submit button. -/
structure Inputs where
  ollama_host : String
  model_index : Fin available_models.length
  user_query : String
  temperature : ℚ
  top_p : ℚ
  submit_button : Bool

/-- The model string chosen by the selectbox (`selected_model`,
app.py lines 32-36): always an element of `available_models`. -/
def selected_model (i : Inputs) : String := available_models.get i.model_index

/-- The options bag passed to `client.generate`
(`options={"temperature": ..., "top_p": ...}`, app.py lines 88-91). -/
structure Options where
  temperature : ℚ
  top_p : ℚ
deriving DecidableEq, Repr

/-- One outbound `client.generate` call (app.py lines 84-92): the keyword
arguments `model`, `prompt`, `stream`, `options`. -/
structure Request where
  model : String
  prompt : String
  stream : Bool
  options : Options
deriving DecidableEq, Repr

/-- The response dict returned by `client.generate`: the generated text
under key `response` (read with bracket access, so absence raises a
`KeyError`), a model name, and four optional numeric counters read with
`.get` (absence yields `None`, modelled as `none`). -/
structure OllamaResponse where
  model : String
  response : Option String
  total_duration : Option Nat
  load_duration : Option Nat
  prompt_eval_count : Option Nat
  eval_count : Option Nat
deriving DecidableEq, Repr

/-- What the stub inference service does with one request: return a
response dict, raise a connection-level error (the kind caught by
`except ConnectionError`, app.py line 117), or raise any other exception
carrying a message (caught by `except Exception as e`, app.py line 121). -/
inductive ServiceResult where
  | success (resp : OllamaResponse)
  | connectionError
  | otherError (msg : String)
deriving DecidableEq, Repr

/-- The collapsible metadata expander rendered on success (app.py lines
101-115): three `st.metric` values taken from the request-side widget
values, and the `st.json` dict literal whose four keys are always present,
each carrying the counter read from the response or the explicit `null`
("not available") marker `none` when the response lacks the field. -/
structure MetaPanel where
  model : String
  temperature : ℚ
  top_p : ℚ
  total_duration : Option Nat
  load_duration : Option Nat
  prompt_eval_count : Option Nat
  eval_count : Option Nat
deriving DecidableEq, Repr

/-- The terminal rendered state of one interaction cycle. -/
inductive Rendered where
  | NoAction
  | EmptyPromptWarning (msg : String)
  | Success (text : String) (panel : MetaPanel)
  | ConnectionFailure (msg : String) (hint : String)
  | GenericFailure (msg : String) (hint : String)
deriving DecidableEq, Repr

/-- Remediation hint shown with a connection failure (app.py line 119). -/
def connection_hint : String :=
  "Make sure Ollama is running and accessible at the specified host"

/-- Remediation hint shown with a generic failure (app.py line 123). -/
def generic_hint : String := "Please check your input and try again"

/-- The warning shown when submit is pressed with an empty prompt
(app.py line 126). -/
def empty_prompt_warning_msg : String := "⚠️ Please enter a query before submitting"

/-- A single ASCII apostrophe, as produced by Python `str` on a
`KeyError` argument. -/
def pyQuote : String := String.singleton (Char.ofNat 39)

/-- `str(KeyError("response"))`: the message of the exception raised by
`response["response"]` when the dict lacks the key. -/
def key_error_response_msg : String := pyQuote ++ "response" ++ pyQuote

/-- The request built from the current widget values, exactly the keyword
arguments of `client.generate` (app.py lines 84-92): selected model,
verbatim prompt, `stream=False`, and the options bag holding the two
slider values unmodified. -/
def mkRequest (i : Inputs) : Request :=
  { model := selected_model i
    prompt := i.user_query
    stream := false
    options := { temperature := i.temperature, top_p := i.top_p } }

/-- Rendering of a successful `client.generate` return (app.py lines
95-115): the text under key `response` shown verbatim via `st.write`,
then the metadata expander.  A missing `response` key raises a `KeyError`
inside the `try` block, which `except Exception` converts to a generic
failure. -/
def render_success (i : Inputs) (resp : OllamaResponse) : Rendered :=
  match resp.response with
  | some text =>
      .Success text
        { model := selected_model i
          temperature := i.temperature
          top_p := i.top_p
          total_duration := resp.total_duration
          load_duration := resp.load_duration
          prompt_eval_count := resp.prompt_eval_count
          eval_count := resp.eval_count }
  | none => .GenericFailure ("❌ Error: " ++ key_error_response_msg) generic_hint

/-- Observable outcome of one interaction cycle: the hosts for which an
`ollama.Client` was constructed, the `generate` requests issued, and the
terminal rendered state. -/
structure CycleResult where
  clientHosts : List String
  requests : List Request
  rendered : Rendered
deriving DecidableEq, Repr

/-- One full interaction cycle (app.py lines 75-126).  Mirrors the
Python control flow: `if submit_button and user_query:` construct one
client at the configured host, issue one `generate` call and render its
outcome, with `except ConnectionError` naming the configured host and
`except Exception as e` wrapping the error text; `elif submit_button and
not user_query:` render the warning and perform no request; otherwise no
action.  The function is total: every service outcome is converted to a
rendered state and none crashes the session. -/
def runCycle (i : Inputs) (svc : Request → ServiceResult) : CycleResult :=
  if i.submit_button = true ∧ i.user_query ≠ "" then
    match svc (mkRequest i) with
    | .success resp => ⟨[i.ollama_host], [mkRequest i], render_success i resp⟩
    | .connectionError =>
        ⟨[i.ollama_host], [mkRequest i],
          .ConnectionFailure ("❌ Could not connect to Ollama at " ++ i.ollama_host)
            connection_hint⟩
    | .otherError msg =>
        ⟨[i.ollama_host], [mkRequest i], .GenericFailure ("❌ Error: " ++ msg) generic_hint⟩
  else if i.submit_button = true ∧ i.user_query = "" then
    ⟨[], [], .EmptyPromptWarning empty_prompt_warning_msg⟩
  else
    ⟨[], [], .NoAction⟩

/-- A session: the script re-executes from scratch on every interaction,
so a sequence of cycles is the independent map of `runCycle` over the
sequence of widget-value snapshots — no state is carried between cycles. -/
def runSession (is : List Inputs) (svc : Request → ServiceResult) : List CycleResult :=
  is.map (fun i => runCycle i svc)

/-! Concrete sample data used by the witnesses. -/

/-- A concrete set of widget values: submit pressed with a non-empty
prompt and the default slider values. -/
def sampleInputs : Inputs :=
  { ollama_host := "http://localhost:11434"
    model_index := ⟨0, by decide⟩
    user_query := "Hello"
    temperature := 7/10
    top_p := 9/10
    submit_button := true }

/-- The successful response of the spec example: text "Hello world",
total_duration 123, eval_count 10, the other counters absent. -/
def helloResp : OllamaResponse :=
  { model := "llama2"
    response := some "Hello world"
    total_duration := some 123
    load_duration := none
    prompt_eval_count := none
    eval_count := some 10 }

/-- A successful response whose own model field disagrees with the
selected model, to show the metadata panel ignores it. -/
def qwenResp : OllamaResponse :=
  { model := "qwen"
    response := some "hi"
    total_duration := none
    load_duration := none
    prompt_eval_count := none
    eval_count := none }

/-- Claim C1: when submit is pressed with a non-empty prompt and the call
raises a connection-level error, the cycle ends in the ConnectionFailure
state, the rendered error message contains the exact configured host
string, and the generic-failure branch is not taken. -/
theorem connectionError_yields_ConnectionFailure (i : Inputs)
    (svc : Request → ServiceResult)
    (hs : i.submit_button = true) (hq : i.user_query ≠ "")
    (hc : svc (mkRequest i) = .connectionError) :
    (runCycle i svc).rendered =
      .ConnectionFailure ("❌ Could not connect to Ollama at " ++ i.ollama_host)
        connection_hint
    ∧ (∃ pre post,
        "❌ Could not connect to Ollama at " ++ i.ollama_host
          = pre ++ i.ollama_host ++ post)
    ∧ ∀ m h, (runCycle i svc).rendered ≠ .GenericFailure m h := by
  have hcond : i.submit_button = true ∧ i.user_query ≠ "" := ⟨hs, hq⟩
  unfold runCycle
  rw [if_pos hcond, hc]
  refine ⟨rfl, ⟨"❌ Could not connect to Ollama at ", "", (String.append_empty _).symm⟩, ?_⟩
  intro m h
  simp

/-- Claim C1 witness: a concrete unreachable-host cycle. -/
theorem connectionError_yields_ConnectionFailure_witness :
    sampleInputs.submit_button = true ∧ sampleInputs.user_query ≠ "" ∧
    (runCycle sampleInputs (fun _ => .connectionError)).rendered =
      .ConnectionFailure ("❌ Could not connect to Ollama at " ++ sampleInputs.ollama_host)
        connection_hint :=
  ⟨rfl, by decide,
    (connectionError_yields_ConnectionFailure sampleInputs (fun _ => .connectionError)
      rfl (by decide) rfl).1⟩

/-- Claim C2: for every valid (temperature, top_p) pair on the step-0.1
sliders over [0, 1], the options bag passed to generate equals exactly
that pair, with no other fields and no transformation of either value. -/
theorem options_bag_passed_through (i : Inputs)
    (ht : validSliderValue i.temperature) (hp : validSliderValue i.top_p) :
    (mkRequest i).options = { temperature := i.temperature, top_p := i.top_p } := rfl

/-- Claim C2 witness: the default slider values pass through unchanged. -/
theorem options_bag_passed_through_witness :
    validSliderValue sampleInputs.temperature ∧ validSliderValue sampleInputs.top_p ∧
    (mkRequest sampleInputs).options = { temperature := 7/10, top_p := 9/10 } :=
  ⟨⟨7, by norm_num, by norm_num [sampleInputs]⟩,
   ⟨9, by norm_num, by norm_num [sampleInputs]⟩,
   options_bag_passed_through sampleInputs
     ⟨7, by norm_num, by norm_num [sampleInputs]⟩
     ⟨9, by norm_num, by norm_num [sampleInputs]⟩⟩

/-- Claim C3: pressing submit with an empty prompt constructs no client,
issues no generate call, and ends in the EmptyPromptWarning state. -/
theorem empty_prompt_no_request (i : Inputs) (svc : Request → ServiceResult)
    (hs : i.submit_button = true) (hq : i.user_query = "") :
    (runCycle i svc).clientHosts = [] ∧ (runCycle i svc).requests = [] ∧
    (runCycle i svc).rendered = .EmptyPromptWarning empty_prompt_warning_msg := by
  have h1 : ¬ (i.submit_button = true ∧ i.user_query ≠ "") := fun h => h.2 hq
  have h2 : i.submit_button = true ∧ i.user_query = "" := ⟨hs, hq⟩
  unfold runCycle
  rw [if_neg h1, if_pos h2]
  exact ⟨rfl, rfl, rfl⟩

/-- Claim C3 witness: a concrete empty-prompt submission. -/
theorem empty_prompt_no_request_witness :
    (runCycle { sampleInputs with user_query := "" } (fun _ => .connectionError)).clientHosts = [] ∧
    (runCycle { sampleInputs with user_query := "" } (fun _ => .connectionError)).requests = [] ∧
    (runCycle { sampleInputs with user_query := "" } (fun _ => .connectionError)).rendered =
      .EmptyPromptWarning empty_prompt_warning_msg :=
  empty_prompt_no_request { sampleInputs with user_query := "" } (fun _ => .connectionError) rfl rfl

/-- Claim C4: a successful response renders the generated text verbatim
and the metadata panel carries the four counters exactly as read from the
response, an absent counter appearing as the explicit `none` ("not
available") marker rather than being omitted or defaulted to zero. -/
theorem success_rendered_verbatim (i : Inputs) (svc : Request → ServiceResult)
    (resp : OllamaResponse) (t : String)
    (hs : i.submit_button = true) (hq : i.user_query ≠ "")
    (hr : svc (mkRequest i) = .success resp) (ht : resp.response = some t) :
    (runCycle i svc).rendered =
      .Success t
        { model := selected_model i
          temperature := i.temperature
          top_p := i.top_p
          total_duration := resp.total_duration
          load_duration := resp.load_duration
          prompt_eval_count := resp.prompt_eval_count
          eval_count := resp.eval_count } := by
  have hcond : i.submit_button = true ∧ i.user_query ≠ "" := ⟨hs, hq⟩
  simp only [runCycle, if_pos hcond, hr, render_success, ht]

/-- Claim C4 witness: the spec example response renders "Hello world"
verbatim with the two absent counters shown as `none`, not `some 0`. -/
theorem success_rendered_verbatim_witness :
    (runCycle sampleInputs (fun _ => .success helloResp)).rendered =
      .Success "Hello world"
        { model := "llama2"
          temperature := 7/10
          top_p := 9/10
          total_duration := some 123
          load_duration := none
          prompt_eval_count := none
          eval_count := some 10 } ∧
    helloResp.load_duration = none ∧ (none : Option Nat) ≠ some 0 :=
  ⟨success_rendered_verbatim sampleInputs (fun _ => .success helloResp) helloResp
      "Hello world" rfl (by decide) rfl rfl,
   rfl, by decide⟩

/-- Claim C5: any non-connection failure of the call ends the cycle in
the GenericFailure state whose message contains the underlying error text
verbatim; exactly one request was issued (no retry). -/
theorem otherError_yields_GenericFailure (i : Inputs) (svc : Request → ServiceResult)
    (msg : String)
    (hs : i.submit_button = true) (hq : i.user_query ≠ "")
    (he : svc (mkRequest i) = .otherError msg) :
    (runCycle i svc).requests = [mkRequest i] ∧
    (runCycle i svc).rendered = .GenericFailure ("❌ Error: " ++ msg) generic_hint ∧
    ∃ pre post, "❌ Error: " ++ msg = pre ++ msg ++ post := by
  have hcond : i.submit_button = true ∧ i.user_query ≠ "" := ⟨hs, hq⟩
  unfold runCycle
  rw [if_pos hcond, he]
  exact ⟨rfl, rfl, "❌ Error: ", "", (String.append_empty _).symm⟩

/-- Claim C5 witness: a concrete service-side error is wrapped verbatim. -/
theorem otherError_yields_GenericFailure_witness :
    (runCycle sampleInputs (fun _ => .otherError "boom")).requests = [mkRequest sampleInputs] ∧
    (runCycle sampleInputs (fun _ => .otherError "boom")).rendered =
      .GenericFailure ("❌ Error: " ++ "boom") generic_hint :=
  ⟨(otherError_yields_GenericFailure sampleInputs (fun _ => .otherError "boom") "boom"
      rfl (by decide) rfl).1,
   (otherError_yields_GenericFailure sampleInputs (fun _ => .otherError "boom") "boom"
      rfl (by decide) rfl).2.1⟩

/-- Claim C6: a whitespace-only (hence non-empty) prompt is treated as
non-empty: the request is issued and the cycle does not end in the
EmptyPromptWarning state. -/
theorem whitespace_prompt_issues_request (i : Inputs) (svc : Request → ServiceResult)
    (hs : i.submit_button = true) (hne : i.user_query ≠ "")
    (hws : ∀ c ∈ i.user_query.data, c.isWhitespace) :
    (runCycle i svc).requests = [mkRequest i] ∧
    ∀ m, (runCycle i svc).rendered ≠ .EmptyPromptWarning m := by
  have hcond : i.submit_button = true ∧ i.user_query ≠ "" := ⟨hs, hne⟩
  unfold runCycle
  rw [if_pos hcond]
  cases hsvc : svc (mkRequest i) with
  | success resp =>
      refine ⟨rfl, ?_⟩
      intro m
      cases hresp : resp.response <;> simp [render_success, hresp]
  | connectionError => exact ⟨rfl, by intro m; simp⟩
  | otherError msg => exact ⟨rfl, by intro m; simp⟩

/-- Claim C6 witness: a single-space prompt issues the request. -/
theorem whitespace_prompt_issues_request_witness :
    ({ sampleInputs with user_query := " " } : Inputs).user_query ≠ "" ∧
    (∀ c ∈ ({ sampleInputs with user_query := " " } : Inputs).user_query.data, c.isWhitespace) ∧
    (runCycle { sampleInputs with user_query := " " } (fun _ => .connectionError)).requests =
      [mkRequest { sampleInputs with user_query := " " }] :=
  ⟨by decide, by decide,
   (whitespace_prompt_issues_request { sampleInputs with user_query := " " }
      (fun _ => .connectionError) rfl (by decide) (by decide)).1⟩

/-- Claim C7: every submission with a non-empty prompt constructs exactly
one client at the configured host and issues exactly one request carrying
the selected model, the verbatim prompt, the two sampling options, and
streaming explicitly disabled. -/
theorem single_request_per_submission (i : Inputs) (svc : Request → ServiceResult)
    (hs : i.submit_button = true) (hq : i.user_query ≠ "") :
    (runCycle i svc).clientHosts = [i.ollama_host] ∧
    (runCycle i svc).requests = [mkRequest i] ∧
    (mkRequest i).model = selected_model i ∧
    (mkRequest i).prompt = i.user_query ∧
    (mkRequest i).stream = false ∧
    (mkRequest i).options = { temperature := i.temperature, top_p := i.top_p } := by
  have hcond : i.submit_button = true ∧ i.user_query ≠ "" := ⟨hs, hq⟩
  unfold runCycle
  rw [if_pos hcond]
  cases hsvc : svc (mkRequest i) <;> exact ⟨rfl, rfl, rfl, rfl, rfl, rfl⟩

/-- Claim C7 witness: a concrete submission issues one streaming-disabled
request. -/
theorem single_request_per_submission_witness :
    (runCycle sampleInputs (fun _ => .connectionError)).clientHosts =
      [sampleInputs.ollama_host] ∧
    (runCycle sampleInputs (fun _ => .connectionError)).requests = [mkRequest sampleInputs] ∧
    (mkRequest sampleInputs).stream = false :=
  ⟨(single_request_per_submission sampleInputs (fun _ => .connectionError) rfl (by decide)).1,
   (single_request_per_submission sampleInputs (fun _ => .connectionError) rfl (by decide)).2.1,
   (single_request_per_submission sampleInputs (fun _ => .connectionError) rfl (by decide)).2.2.2.2.1⟩

/-- Claim C8: the configuration panel defaults — the host defaults to the
OLLAMA_HOST environment variable and otherwise to the hardcoded fallback;
the model is a single choice from the hardcoded list; the two sliders run
over [0, 1] with step 0.1 and defaults 0.7 and 0.9. -/
theorem config_panel_defaults (env : String → Option String) (h : String) :
    (env "OLLAMA_HOST" = some h → host_default env = h) ∧
    (env "OLLAMA_HOST" = none → host_default env = default_host_fallback) ∧
    default_host_fallback = "http://localhost:11434" ∧
    available_models = ["llama2", "mistral", "neural-chat", "dolphin-mixtral"] ∧
    temperature_slider = { min := 0, max := 1, default := 7/10, step := 1/10 } ∧
    top_p_slider = { min := 0, max := 1, default := 9/10, step := 1/10 } ∧
    (∀ i : Inputs, selected_model i ∈ available_models) := by
  refine ⟨fun he => ?_, fun he => ?_, rfl, rfl, rfl, rfl, fun i => ?_⟩
  · simp [host_default, he]
  · simp [host_default, he]
  · exact List.get_mem available_models i.model_index.1 i.model_index.2

/-- Claim C8 witness: both branches of the host default at concrete
environments. -/
theorem config_panel_defaults_witness :
    host_default (fun _ => some "http://example:1234") = "http://example:1234" ∧
    host_default (fun _ => none) = default_host_fallback :=
  ⟨(config_panel_defaults (fun _ => some "http://example:1234") "http://example:1234").1 rfl,
   (config_panel_defaults (fun _ => none) "x").2.1 rfl⟩

/-- Claim C9: the submit-and-render cycle is a deterministic pure
function of the widget values and the stub service: the last cycle of any
session equals the pure value of that cycle's inputs, so resubmitting
identical inputs after any history reproduces an identical rendered
state — nothing is cached or reused across cycles. -/
theorem resubmission_reproduces_rendered_state (h1 h2 : List Inputs) (i : Inputs)
    (svc : Request → ServiceResult) :
    (runSession (h1 ++ [i]) svc).getLast? = some (runCycle i svc) ∧
    (runSession (h1 ++ [i]) svc).getLast? = (runSession (h2 ++ [i]) svc).getLast? := by
  have key : ∀ hl : List Inputs,
      (runSession (hl ++ [i]) svc).getLast? = some (runCycle i svc) := by
    intro hl
    unfold runSession
    rw [List.map_append]
    exact List.getLast?_concat _
  exact ⟨key h1, (key h1).trans (key h2).symm⟩

/-- Claim C10: the model of every issued request belongs to the hardcoded
four-element list, and the metadata panel of a success shows the model,
temperature and top-p of the request just submitted, not values taken
from the response. -/
theorem model_in_list_and_metrics_from_request (i : Inputs)
    (svc : Request → ServiceResult) (resp : OllamaResponse) (t : String)
    (hs : i.submit_button = true) (hq : i.user_query ≠ "")
    (hr : svc (mkRequest i) = .success resp) (ht : resp.response = some t) :
    (∀ r ∈ (runCycle i svc).requests, r.model ∈ available_models) ∧
    ∃ panel, (runCycle i svc).rendered = .Success t panel ∧
      panel.model = selected_model i ∧ panel.temperature = i.temperature ∧
      panel.top_p = i.top_p := by
  have hcond : i.submit_button = true ∧ i.user_query ≠ "" := ⟨hs, hq⟩
  have hmem : (mkRequest i).model ∈ available_models :=
    List.get_mem available_models i.model_index.1 i.model_index.2
  simp only [runCycle, if_pos hcond, hr, render_success, ht]
  refine ⟨?_, _, rfl, rfl, rfl, rfl⟩
  intro r hrmem
  rw [List.mem_singleton] at hrmem
  rw [hrmem]
  exact hmem

/-- Claim C10 witness: a response claiming model "qwen" still shows the
selected model "llama2" in the panel. -/
theorem model_in_list_and_metrics_from_request_witness :
    qwenResp.model ≠ selected_model sampleInputs ∧
    (∀ r ∈ (runCycle sampleInputs (fun _ => .success qwenResp)).requests,
      r.model ∈ available_models) ∧
    ∃ panel, (runCycle sampleInputs (fun _ => .success qwenResp)).rendered =
        .Success "hi" panel ∧
      panel.model = selected_model sampleInputs ∧
      panel.temperature = sampleInputs.temperature ∧
      panel.top_p = sampleInputs.top_p :=
  ⟨by decide,
   (model_in_list_and_metrics_from_request sampleInputs (fun _ => .success qwenResp)
      qwenResp "hi" rfl (by decide) rfl rfl).1,
   (model_in_list_and_metrics_from_request sampleInputs (fun _ => .success qwenResp)
      qwenResp "hi" rfl (by decide) rfl rfl).2⟩
